import Mathlib

/-!
Verification of the fmm experiment-analysis pipeline.

The repository's analysis scripts (exp15 `parse-results.py`,
exp15-isolated `compare-isolated.py`, exp16-cost `score.py`,
exp17-cli `score.py`, and the proofs harness `parse-results.py` /
`compare-results.py`) parse agent event streams into metrics records,
score final answers against ground truth, and compare aggregates.
This file embeds those scripts shallowly: Python strings become `String`,
decoded JSON event records become an inductive `Event` type carrying the
fields the scripts read (a `.get(k, d)` access on a possibly-missing key
is an `Option` with `getD`), floats used for currency and scores become
`ℚ`, and each per-line loop becomes a `List.foldl` over a state record.
-/

/- ## Python string primitives -/

/-- Characters treated as whitespace by Python's `str.strip()` (ASCII range;
the scripts only ever see ASCII whitespace). -/
def pySpace (c : Char) : Bool :=
  c = ' ' || c = '\t' || c = '\n' || c = '\r' || c = '\x0b' || c = '\x0c'

/-- Drop trailing characters satisfying `p`. -/
def dropEndWhile (p : Char → Bool) (l : List Char) : List Char :=
  (l.reverse.dropWhile p).reverse

/-- Drop leading and trailing characters satisfying `p`
(Python `str.strip(chars)`). -/
def stripList (p : Char → Bool) (l : List Char) : List Char :=
  dropEndWhile p (l.dropWhile p)

/-- Python `s.strip()`. -/
def pyStrip (s : String) : String := ⟨stripList pySpace s.toList⟩

/-- Python `s.strip("\x60")` (strip surrounding backticks). -/
def pyStripBackticks (s : String) : String :=
  ⟨stripList (fun c => c = '`') s.toList⟩

/-- Python `s.replace("./", "")`: remove every (leftmost-first,
non-overlapping) occurrence of the two-character pattern `./`. -/
def replDotSlash : List Char → List Char
  | '.' :: '/' :: rest => replDotSlash rest
  | c :: rest => c :: replDotSlash rest
  | [] => []

/-- `String` wrapper for `replDotSlash`. -/
def pyReplaceDotSlash (s : String) : String := ⟨replDotSlash s.toList⟩

/-- Python `s.replace(pat, "")` for a three-character pattern `a b c`
(used for the `.js` / `.ts` extension strips). -/
def replPat3 (a b c : Char) : List Char → List Char
  | x :: y :: z :: rest =>
      if x = a ∧ y = b ∧ z = c then replPat3 a b c rest
      else x :: replPat3 a b c (y :: z :: rest)
  | l => l

/-- Python substring test `needle in hay` on char lists. -/
def isSubstrL (needle : List Char) : List Char → Bool
  | [] => needle.isEmpty
  | c :: rest => needle.isPrefixOf (c :: rest) || isSubstrL needle rest

/-- Python `needle in hay` for strings. -/
def pyIn (needle hay : String) : Bool := isSubstrL needle.toList hay.toList

/-- Python `s.startswith(pat)`. -/
def pyStartsWith (pat s : String) : Bool := pat.toList.isPrefixOf s.toList

/-- Python `s.lower()` (ASCII case folding, as in the scripts' inputs). -/
def pyLower (s : String) : String := ⟨s.toList.map Char.toLower⟩

/-- Python `item.split("/")[-1]`: the suffix after the last `/`. -/
def lastComp (l : List Char) : List Char :=
  (l.reverse.takeWhile (fun c => c != '/')).reverse

/- ## Scorers (exp16-cost/score.py and exp17-cli/score.py) -/

/-- `item.split("/")[-1].replace(".js", "").replace(".ts", "")` —
the filename stem used by `score_set_match`. -/
def stemOf (item : String) : String :=
  ⟨replPat3 '.' 't' 's' (replPat3 '.' 'j' 's' (lastComp item.toList))⟩

/-- exp16 `score_exact_path` normalization: `s.strip().replace("./", "")`. -/
def norm16 (s : String) : String := pyReplaceDotSlash (pyStrip s)

/-- exp16-cost/score.py `score_exact_path` (floats 1.0/0.0 become `ℚ`). -/
def score_exact_path (answer truth : String) : ℚ :=
  if pyIn (norm16 truth) (norm16 answer) then 1 else 0

/-- exp17 answer normalization:
`answer.strip().replace("./", "").strip("\x60").strip()`. -/
def norm17answer (s : String) : String := pyStrip (pyStripBackticks (norm16 s))

/-- exp17-cli/score.py `score_exact_path`: like exp16's but the answer is
additionally stripped of surrounding backticks and whitespace. -/
def score_exact_path17 (answer truth : String) : ℚ :=
  if pyIn (norm16 truth) (norm17answer answer) then 1 else 0

/-- `score_set_match` (identical in exp16 and exp17): fraction of expected
items whose stem occurs case-insensitively in the answer; an empty
expected list scores 1.0. -/
def score_set_match (answer : String) (truth_list : List String) : ℚ :=
  if truth_list.isEmpty then 1
  else
    let answer_lower := pyStrip (pyLower answer)
    let found := truth_list.countP
      (fun item => pyIn (pyLower (stemOf item)) answer_lower)
    (found : ℚ) / (truth_list.length : ℚ)

/-- Word characters of Python's regex `\w` in ASCII: `[a-zA-Z0-9_]`. -/
def wordChar (c : Char) : Bool := c.isAlpha || c.isDigit || c == '_'

/-- Engine behind `re.findall(r"\b(\d+)\b", s)`: collect the maximal digit
runs of the text whose neighbouring characters (when they exist) are not
word characters — exactly the matches of the word-bounded digit pattern.
`leftOk` records whether the character before the current position (or run)
is absent or a non-word character; `run` is the digit run in progress. -/
def numTokens (leftOk : Bool) (run : List Char) : List Char → List (List Char)
  | [] => if !run.isEmpty && leftOk then [run] else []
  | c :: rest =>
      if c.isDigit then numTokens leftOk (run ++ [c]) rest
      else
        (if !run.isEmpty && leftOk && !wordChar c then [run] else []) ++
          numTokens (!wordChar c) [] rest

/-- `re.findall(r"\b(\d+)\b", s)` as a list of digit strings. -/
def findNumbers (s : String) : List String :=
  (numTokens true [] s.toList).map (fun l => ⟨l⟩)

/-- `score_exact_number` (identical in exp16 and exp17): 1.0 iff the
expected number's string form is among the word-bounded digit tokens. -/
def score_exact_number (answer truth : String) : ℚ :=
  if truth ∈ findNumbers answer then 1 else 0

/- ## Percentage deltas (compare-isolated.py, harness compare-results.py) -/

/-- compare-isolated.py `print_comparison` tool-calls delta:
`((iso - base) / max(base, 1)) * 100`. -/
def toolDelta (base iso : ℚ) : ℚ := ((iso - base) / max base 1) * 100

/-- compare-isolated.py `print_comparison` cost delta:
`((iso - base) / max(base, 0.01)) * 100`. -/
def costDelta (base iso : ℚ) : ℚ := ((iso - base) / max base (1 / 100)) * 100

/-- harness compare-results.py `pct_change`; the `"N/A"` early return for a
zero control value is modelled as `none`. -/
def pct_change (control treatment : ℚ) : Option ℚ :=
  if control = 0 then none
  else some (((treatment - control) / control) * 100)

/- ## Event model

A decoded stream-json record, restricted to the fields the scripts read.
A `.get(key, default)` access on a possibly-absent key becomes an `Option`
with `getD`; usage counters absent from a record behave exactly like 0 in
every script (`.get(k, 0)` or Python truthiness), so token fields are
`Option Nat` read through `getD`. -/

/-- The `input` object of a `tool_use` block, restricted to the keys the
scripts access (`file_path`, `command`, `path`). -/
structure ToolInput where
  file_path : Option String := none
  command : Option String := none
  path : Option String := none

/-- One content block of an `assistant` or `user` message. -/
inductive Block where
  | text (s : String)
  | toolUse (name : String) (input : ToolInput)
  | toolResult (content : String)
  | otherBlock

/-- A `usage` object (assistant delta or result total). -/
structure Usage where
  input_tokens : Option Nat := none
  output_tokens : Option Nat := none
  cache_read_input_tokens : Option Nat := none
  cache_creation_input_tokens : Option Nat := none

/-- One entry of the harness result record's `modelUsage` mapping. -/
structure ModelUsage where
  costUSD : Option ℚ := none
  inputTokens : Option Nat := none
  outputTokens : Option Nat := none
  cacheCreationInputTokens : Option Nat := none
  cacheReadInputTokens : Option Nat := none

/-- The terminal `result` record's fields, as read across the scripts. -/
structure ResultRec where
  duration_ms : Option Nat := none
  num_turns : Option Nat := none
  total_cost_usd : Option ℚ := none
  usage : Usage := {}
  result : Option String := none
  modelUsage : List (String × ModelUsage) := []
  permission_denials : List String := []

/-- A decoded event record, discriminated by its `type` field. `meta` is the
exp15 `_meta` record (its `duration_ms`, absent read as 0); `otherEvent`
covers unrecognized types, which every script ignores. Records that fail to
decode are skipped before this point and so never reach the folds. -/
inductive Event where
  | systemInit (mcp_servers : List String) (skills : List String)
  | assistant (content : List Block) (usage : Usage)
  | user (content : List Block)
  | result (r : ResultRec)
  | meta (duration_ms : Nat)
  | otherEvent

/- ## exp15/parse-results.py and exp15-isolated/compare-isolated.py
`parse_run` — the two scripts initialize the identical metrics dict, so the
loop state is shared; their block handlers differ and are kept separate. -/

/-- The `metrics` dict of `parse_run` while the loop runs (the
`files_accessed` set is still a set here; floats are `ℚ`). -/
structure Exp15State where
  tool_calls : Nat := 0
  read_calls : Nat := 0
  glob_calls : Nat := 0
  grep_calls : Nat := 0
  bash_calls : Nat := 0
  mcp_calls : Nat := 0
  fmm_cli_calls : Nat := 0
  files_accessed : Finset String := ∅
  manifest_accessed : Bool := false
  input_tokens : Nat := 0
  output_tokens : Nat := 0
  cache_read_tokens : Nat := 0
  cache_creation_tokens : Nat := 0
  duration_ms : Nat := 0
  num_turns : Nat := 0
  cost_usd : ℚ := 0

/-- exp15 `parse_run`, assistant `tool_use` block handling (lines 73-96).
The manifest test is the source's
`".fmm/index.json" in fp or "fmm" in fp.lower() and "index" in fp.lower()`
(Python precedence: `A or (B and C)`). -/
def exp15Block (m : Exp15State) (b : Block) : Exp15State :=
  match b with
  | .toolUse tool_name tool_input =>
      let m := { m with tool_calls := m.tool_calls + 1 }
      if tool_name = "Read" then
        let m := { m with read_calls := m.read_calls + 1 }
        let fp := tool_input.file_path.getD ""
        if fp ≠ "" then
          let m := { m with files_accessed := insert fp m.files_accessed }
          if pyIn ".fmm/index.json" fp ||
              (pyIn "fmm" (pyLower fp) && pyIn "index" (pyLower fp)) then
            { m with manifest_accessed := true }
          else m
        else m
      else if tool_name = "Glob" then { m with glob_calls := m.glob_calls + 1 }
      else if tool_name = "Grep" then { m with grep_calls := m.grep_calls + 1 }
      else if tool_name = "Bash" then
        let m := { m with bash_calls := m.bash_calls + 1 }
        let cmd := tool_input.command.getD ""
        if pyIn "fmm " cmd || pyStartsWith "fmm" cmd then
          { m with fmm_cli_calls := m.fmm_cli_calls + 1 }
        else m
      else if pyStartsWith "mcp__fmm__" tool_name ||
          pyStartsWith "fmm_" tool_name then
        { m with mcp_calls := m.mcp_calls + 1 }
      else m
  | _ => m

/-- `user` record `tool_result` handling — textually identical in exp15
(lines 99-106) and exp15-isolated (lines 114-119). -/
def exp15UserBlock (m : Exp15State) (b : Block) : Exp15State :=
  match b with
  | .toolResult content =>
      if pyIn ".fmm/index.json" content then
        { m with manifest_accessed := true }
      else m
  | _ => m

/-- One loop iteration of exp15 `parse_run` (the `_meta` branch comes first
in the source; the result branch reads `duration_ms` with the current value
as default and everything else with default 0/0.0). -/
def exp15Step (m : Exp15State) (e : Event) : Exp15State :=
  match e with
  | .meta d => { m with duration_ms := d }
  | .result r =>
      { m with
        duration_ms := r.duration_ms.getD m.duration_ms
        num_turns := r.num_turns.getD 0
        cost_usd := r.total_cost_usd.getD 0
        input_tokens := r.usage.input_tokens.getD 0
        output_tokens := r.usage.output_tokens.getD 0
        cache_read_tokens := r.usage.cache_read_input_tokens.getD 0
        cache_creation_tokens := r.usage.cache_creation_input_tokens.getD 0 }
  | .assistant content _ => content.foldl exp15Block m
  | .user content => content.foldl exp15UserBlock m
  | _ => m

/-- exp15 `parse_run`'s line loop over the decoded events. -/
def exp15Fold (m : Exp15State) (events : List Event) : Exp15State :=
  events.foldl exp15Step m

/-- exp15-isolated `parse_run`, assistant `tool_use` handling (lines
88-112): the Read manifest test is the exact marker only, and the
mcp branch additionally flags manifest access for tool names containing
`manifest` or `index`. -/
def isoBlock (m : Exp15State) (b : Block) : Exp15State :=
  match b with
  | .toolUse tool_name tool_input =>
      let m := { m with tool_calls := m.tool_calls + 1 }
      if tool_name = "Read" then
        let m := { m with read_calls := m.read_calls + 1 }
        let fp := tool_input.file_path.getD ""
        if fp ≠ "" then
          let m := { m with files_accessed := insert fp m.files_accessed }
          if pyIn ".fmm/index.json" fp then
            { m with manifest_accessed := true }
          else m
        else m
      else if tool_name = "Glob" then { m with glob_calls := m.glob_calls + 1 }
      else if tool_name = "Grep" then { m with grep_calls := m.grep_calls + 1 }
      else if tool_name = "Bash" then
        let m := { m with bash_calls := m.bash_calls + 1 }
        let cmd := tool_input.command.getD ""
        if pyIn "fmm " cmd || pyStartsWith "fmm" cmd then
          { m with fmm_cli_calls := m.fmm_cli_calls + 1 }
        else m
      else if pyStartsWith "mcp__fmm__" tool_name ||
          pyStartsWith "fmm_" tool_name then
        let m := { m with mcp_calls := m.mcp_calls + 1 }
        if pyIn "manifest" tool_name || pyIn "index" tool_name then
          { m with manifest_accessed := true }
        else m
      else m
  | _ => m

/-- One loop iteration of exp15-isolated `parse_run`. -/
def isoStep (m : Exp15State) (e : Event) : Exp15State :=
  match e with
  | .meta d => { m with duration_ms := d }
  | .result r =>
      { m with
        duration_ms := r.duration_ms.getD m.duration_ms
        num_turns := r.num_turns.getD 0
        cost_usd := r.total_cost_usd.getD 0
        input_tokens := r.usage.input_tokens.getD 0
        output_tokens := r.usage.output_tokens.getD 0
        cache_read_tokens := r.usage.cache_read_input_tokens.getD 0
        cache_creation_tokens := r.usage.cache_creation_input_tokens.getD 0 }
  | .assistant content _ => content.foldl isoBlock m
  | .user content => content.foldl exp15UserBlock m
  | _ => m

/-- exp15-isolated `parse_run`'s line loop. -/
def isoFold (m : Exp15State) (events : List Event) : Exp15State :=
  events.foldl isoStep m

/-- The returned metrics dict of both `parse_run`s: the final line
`metrics["files_accessed"] = len(metrics["files_accessed"])` replaces the
set by its size, so the output carries a `Nat` there. -/
structure Exp15Out where
  tool_calls : Nat
  read_calls : Nat
  glob_calls : Nat
  grep_calls : Nat
  bash_calls : Nat
  mcp_calls : Nat
  fmm_cli_calls : Nat
  files_accessed : Nat
  manifest_accessed : Bool
  input_tokens : Nat
  output_tokens : Nat
  cache_read_tokens : Nat
  cache_creation_tokens : Nat
  duration_ms : Nat
  num_turns : Nat
  cost_usd : ℚ

/-- Package a final loop state as `parse_run`'s return value. -/
def exp15Finish (m : Exp15State) : Exp15Out :=
  { tool_calls := m.tool_calls
    read_calls := m.read_calls
    glob_calls := m.glob_calls
    grep_calls := m.grep_calls
    bash_calls := m.bash_calls
    mcp_calls := m.mcp_calls
    fmm_cli_calls := m.fmm_cli_calls
    files_accessed := m.files_accessed.card
    manifest_accessed := m.manifest_accessed
    input_tokens := m.input_tokens
    output_tokens := m.output_tokens
    cache_read_tokens := m.cache_read_tokens
    cache_creation_tokens := m.cache_creation_tokens
    duration_ms := m.duration_ms
    num_turns := m.num_turns
    cost_usd := m.cost_usd }

/-- exp15 `parse_run` end to end. -/
def exp15ParseRun (events : List Event) : Exp15Out :=
  exp15Finish (exp15Fold {} events)

/-- exp15-isolated `parse_run` end to end. -/
def isoParseRun (events : List Event) : Exp15Out :=
  exp15Finish (isoFold {} events)

/- ## exp16-cost/score.py `parse_jsonl` -/

/-- exp16 `parse_jsonl` loop state. -/
structure Exp16State where
  tool_calls : List String := []
  total_input_tokens : Nat := 0
  total_output_tokens : Nat := 0
  total_cache_read : Nat := 0
  total_cache_create : Nat := 0
  files_read : Finset String := ∅
  final_text : String := ""
  mcp_servers : List String := []
  skills : List String := []

/-- exp16 `parse_jsonl` content-block handling (lines 42-54): the two
file-tracking `if`s test key presence (`"file_path" in inp`). -/
def exp16Block (m : Exp16State) (b : Block) : Exp16State :=
  match b with
  | .toolUse name inp =>
      let m := { m with tool_calls := m.tool_calls ++ [name] }
      let m :=
        if name = "Read" ∧ inp.file_path.isSome then
          { m with files_read := insert (inp.file_path.getD "") m.files_read }
        else m
      if name = "Grep" ∧ inp.path.isSome then
        { m with files_read := insert (inp.path.getD "") m.files_read }
      else m
  | .text s => { m with final_text := s }
  | _ => m

/-- One loop iteration of exp16 `parse_jsonl` (usage deltas are added
before the content blocks are scanned, as in the source). -/
def exp16Step (m : Exp16State) (e : Event) : Exp16State :=
  match e with
  | .systemInit servers sk => { m with mcp_servers := servers, skills := sk }
  | .assistant content usage =>
      let m := { m with
        total_input_tokens := m.total_input_tokens + usage.input_tokens.getD 0
        total_output_tokens := m.total_output_tokens + usage.output_tokens.getD 0
        total_cache_read :=
          m.total_cache_read + usage.cache_read_input_tokens.getD 0
        total_cache_create :=
          m.total_cache_create + usage.cache_creation_input_tokens.getD 0 }
      content.foldl exp16Block m
  | .result r => { m with final_text := r.result.getD m.final_text }
  | _ => m

/-- The exp16 fmm-call predicate: `"fmm" in t.lower()` (line 63). -/
def isFmmTool (t : String) : Bool := pyIn "fmm" (pyLower t)

/-- exp16 `parse_jsonl`'s return dict. -/
structure Exp16Out where
  tool_calls : List String
  tool_call_count : Nat
  fmm_calls : List String
  grep_calls : Nat
  glob_calls : Nat
  read_calls : Nat
  bash_calls : Nat
  input_tokens : Nat
  output_tokens : Nat
  cache_read_tokens : Nat
  cache_create_tokens : Nat
  total_tokens : Nat
  files_read : Nat
  final_text : String
  mcp_servers : List String
  skills : List String

/-- exp16 `parse_jsonl` end to end (lines 60-77). -/
def exp16ParseJsonl (events : List Event) : Exp16Out :=
  let m := events.foldl exp16Step {}
  { tool_calls := m.tool_calls
    tool_call_count := m.tool_calls.length
    fmm_calls := m.tool_calls.filter isFmmTool
    grep_calls := m.tool_calls.countP (fun t => t == "Grep")
    glob_calls := m.tool_calls.countP (fun t => t == "Glob")
    read_calls := m.tool_calls.countP (fun t => t == "Read")
    bash_calls := m.tool_calls.countP (fun t => t == "Bash")
    input_tokens := m.total_input_tokens
    output_tokens := m.total_output_tokens
    cache_read_tokens := m.total_cache_read
    cache_create_tokens := m.total_cache_create
    total_tokens := m.total_input_tokens + m.total_output_tokens +
      m.total_cache_read + m.total_cache_create
    files_read := m.files_read.card
    final_text := m.final_text
    mcp_servers := m.mcp_servers
    skills := m.skills }

/-- The spec's closed classification set has a sixth bucket, `other`; the
script keeps no counter for it, so it is the complement of the five
recognized predicates. -/
def exp16Other (t : String) : Bool :=
  !(t == "Read" || t == "Glob" || t == "Grep" || t == "Bash" || isFmmTool t)

/-- Indicator of a boolean, for counting classifications. -/
def ind (b : Bool) : Nat := if b then 1 else 0

/-- How many of the six exp16 categories a tool name falls into. -/
def exp16ClassCount (t : String) : Nat :=
  ind (t == "Read") + ind (t == "Glob") + ind (t == "Grep") +
    ind (t == "Bash") + ind (isFmmTool t) + ind (exp16Other t)

/- ## exp17-cli/score.py `parse_stream_json` -/

/-- exp17 `parse_stream_json` loop state. -/
structure Exp17State where
  tool_calls : List String := []
  files_read : Finset String := ∅
  final_text : String := ""
  total_cost : ℚ := 0
  total_input : Nat := 0
  total_output : Nat := 0
  total_cache_read : Nat := 0
  total_cache_create : Nat := 0
  num_turns : Nat := 0
  duration_ms : Nat := 0
  mcp_servers : List String := []
  permission_denials : List String := []

/-- exp17 content-block handling (lines 42-53), identical logic to exp16's. -/
def exp17Block (m : Exp17State) (b : Block) : Exp17State :=
  match b with
  | .toolUse name inp =>
      let m := { m with tool_calls := m.tool_calls ++ [name] }
      let m :=
        if name = "Read" ∧ inp.file_path.isSome then
          { m with files_read := insert (inp.file_path.getD "") m.files_read }
        else m
      if name = "Grep" ∧ inp.path.isSome then
        { m with files_read := insert (inp.path.getD "") m.files_read }
      else m
  | .text s => { m with final_text := s }
  | _ => m

/-- One loop iteration of exp17 `parse_stream_json`. In the assistant
branch the blocks are scanned before the usage deltas are added (lines
41-59). In the result branch (lines 62-78):
`final_text = msg.get("result", final_text) or final_text` keeps the
current text when the key is absent or its value is empty; cost, turns and
duration are (re)assigned with default 0; and each result-level usage
field replaces the cumulative total only when present and non-zero
(Python truthiness of `rusage.get(k)`). -/
def exp17Step (m : Exp17State) (e : Event) : Exp17State :=
  match e with
  | .systemInit servers _ => { m with mcp_servers := servers }
  | .assistant content usage =>
      let m := content.foldl exp17Block m
      { m with
        total_input := m.total_input + usage.input_tokens.getD 0
        total_output := m.total_output + usage.output_tokens.getD 0
        total_cache_read :=
          m.total_cache_read + usage.cache_read_input_tokens.getD 0
        total_cache_create :=
          m.total_cache_create + usage.cache_creation_input_tokens.getD 0 }
  | .result r =>
      { m with
        final_text :=
          match r.result with
          | none => m.final_text
          | some s => if s = "" then m.final_text else s
        total_cost := r.total_cost_usd.getD 0
        num_turns := r.num_turns.getD 0
        duration_ms := r.duration_ms.getD 0
        permission_denials := r.permission_denials
        total_input :=
          if r.usage.input_tokens.getD 0 ≠ 0 then r.usage.input_tokens.getD 0
          else m.total_input
        total_output :=
          if r.usage.output_tokens.getD 0 ≠ 0 then r.usage.output_tokens.getD 0
          else m.total_output
        total_cache_read :=
          if r.usage.cache_read_input_tokens.getD 0 ≠ 0 then
            r.usage.cache_read_input_tokens.getD 0
          else m.total_cache_read
        total_cache_create :=
          if r.usage.cache_creation_input_tokens.getD 0 ≠ 0 then
            r.usage.cache_creation_input_tokens.getD 0
          else m.total_cache_create }
  | _ => m

/-- exp17 `parse_stream_json`'s return dict. -/
structure Exp17Out where
  tool_calls : List String
  tool_call_count : Nat
  fmm_calls : List String
  grep_calls : Nat
  glob_calls : Nat
  read_calls : Nat
  bash_calls : Nat
  input_tokens : Nat
  output_tokens : Nat
  cache_read_tokens : Nat
  cache_create_tokens : Nat
  total_tokens : Nat
  cost_usd : ℚ
  num_turns : Nat
  duration_ms : Nat
  files_read : Nat
  final_text : String
  mcp_servers : List String
  permission_denials : Nat

/-- exp17 `parse_stream_json` end to end (lines 80-100; `final_text or ""`
is the identity on strings since the only falsy string is already `""`). -/
def exp17ParseStreamJson (events : List Event) : Exp17Out :=
  let m := events.foldl exp17Step {}
  { tool_calls := m.tool_calls
    tool_call_count := m.tool_calls.length
    fmm_calls := m.tool_calls.filter isFmmTool
    grep_calls := m.tool_calls.countP (fun t => t == "Grep")
    glob_calls := m.tool_calls.countP (fun t => t == "Glob")
    read_calls := m.tool_calls.countP (fun t => t == "Read")
    bash_calls := m.tool_calls.countP (fun t => t == "Bash")
    input_tokens := m.total_input
    output_tokens := m.total_output
    cache_read_tokens := m.total_cache_read
    cache_create_tokens := m.total_cache_create
    total_tokens := m.total_input + m.total_output + m.total_cache_read +
      m.total_cache_create
    cost_usd := m.total_cost
    num_turns := m.num_turns
    duration_ms := m.duration_ms
    files_read := m.files_read.card
    final_text := m.final_text
    mcp_servers := m.mcp_servers
    permission_denials := m.permission_denials.length }

/- ## proofs/harness/parse-results.py (module-level parse loop) -/

/-- Python `s[:n]`. -/
def pyTake (n : Nat) (s : String) : String := ⟨s.toList.take n⟩

/-- The harness loop's accumulators (lines 14-19). -/
structure HarnState where
  tool_calls : List (String × ToolInput) := []
  files_read : List String := []
  assistant_text : List String := []
  total_input_tokens : Nat := 0
  total_output_tokens : Nat := 0
  total_cost : ℚ := 0

/-- Harness assistant content-block handling (lines 42-62): Read paths and
read-like Bash commands are appended (not deduplicated) to `files_read`. -/
def harnBlock (m : HarnState) (b : Block) : HarnState :=
  match b with
  | .text s => { m with assistant_text := m.assistant_text ++ [s] }
  | .toolUse name inp =>
      let m := { m with tool_calls := m.tool_calls ++ [(name, inp)] }
      if name = "Read" then
        let fp := inp.file_path.getD ""
        if fp ≠ "" then { m with files_read := m.files_read ++ [fp] } else m
      else if name = "Bash" then
        let cmd := inp.command.getD ""
        if pyIn "cat " cmd || pyIn "head " cmd || pyIn "tail " cmd ||
            pyIn "less " cmd then
          { m with files_read := m.files_read ++ ["(bash) " ++ pyTake 100 cmd] }
        else m
      else m
  | _ => m

/-- Harness result-record handling (lines 64-76): per `modelUsage` entry,
cost is reassigned (defaulting to the current value) and the token totals
are merged with the cumulative assistant deltas by `max`. -/
def harnUsageStep (m : HarnState) (mu : String × ModelUsage) : HarnState :=
  { m with
    total_cost := mu.2.costUSD.getD m.total_cost
    total_input_tokens := max m.total_input_tokens
      (mu.2.inputTokens.getD 0 + mu.2.cacheCreationInputTokens.getD 0 +
        mu.2.cacheReadInputTokens.getD 0)
    total_output_tokens :=
      max m.total_output_tokens (mu.2.outputTokens.getD 0) }

/-- One iteration of the harness line loop (usage deltas are added before
the content blocks are scanned, lines 33-62). -/
def harnStep (m : HarnState) (e : Event) : HarnState :=
  match e with
  | .assistant content usage =>
      let m := { m with
        total_input_tokens := m.total_input_tokens + usage.input_tokens.getD 0 +
          usage.cache_creation_input_tokens.getD 0 +
          usage.cache_read_input_tokens.getD 0
        total_output_tokens :=
          m.total_output_tokens + usage.output_tokens.getD 0 }
      content.foldl harnBlock m
  | .result r => r.modelUsage.foldl harnUsageStep m
  | _ => m

/-- Ascending insertion into a sorted list of strings. -/
def insertSorted (s : String) : List String → List String
  | [] => [s]
  | x :: xs => if s < x then s :: x :: xs else x :: insertSorted s xs

/-- Python `sorted(set(l))` for strings: the distinct elements in
ascending order. -/
def uniqueSorted (l : List String) : List String :=
  l.dedup.foldr insertSorted []

/-- The harness `tool_counts` dict (lines 93-96): first-seen insertion
order, as Python dicts preserve it. -/
def bumpCount (l : List (String × Nat)) (k : String) : List (String × Nat) :=
  match l with
  | [] => [(k, 1)]
  | (key, v) :: rest =>
      if key = k then (key, v + 1) :: rest else (key, v) :: bumpCount rest k

/-- `tool_calls_by_type` from the ordered tool-name sequence. -/
def toolTypeCounts (names : List String) : List (String × Nat) :=
  names.foldl bumpCount []

/-- Models `needle in json.dumps(tc["input"])`: the marker strings searched
for (`.fmm`, `index.json`) contain no JSON metacharacters and are not part
of the fixed key names, so the search reduces to the input's string
values. -/
def inputContains (needle : String) (inp : ToolInput) : Bool :=
  pyIn needle (inp.file_path.getD "") || pyIn needle (inp.command.getD "") ||
    pyIn needle (inp.path.getD "")

/-- `len(s.splitlines())` for newline-only text (the scripts join with
`"\n"`). -/
def pySplitlinesCount (s : String) : Nat :=
  if s.toList.isEmpty then 0
  else s.toList.count '\n' +
    (if s.toList.getLast? = some '\n' then 0 else 1)

/-- Python `round(x, 4)`. Mathlib's `round` resolves exact half-ties upward
where Python rounds them to even; the scripts' cost values are arbitrary
floats for which this difference is immaterial to the claims below. -/
def round4 (q : ℚ) : ℚ := (round (q * 10000) : ℤ) / 10000

/-- The harness `result` output dict (lines 99-116), written to the result
JSON file. -/
structure HarnOut where
  condition : String
  label : String
  query : String
  duration_seconds : Nat
  tool_calls_count : Nat
  tool_calls_by_type : List (String × Nat)
  tool_calls : List (String × ToolInput)
  files_read : List String
  files_read_count : Nat
  tokens_in : Nat
  tokens_out : Nat
  tokens_total : Nat
  cost_usd : ℚ
  discovered_fmm : Bool
  used_manifest : Bool
  response_lines : Nat

/-- The harness parse end to end: fold the stream, then build the
serialized result record (lines 78-116). -/
def harnessResult (condition label query : String) (duration : Nat)
    (events : List Event) : HarnOut :=
  let m := events.foldl harnStep {}
  let full_text := String.intercalate "\n" m.assistant_text
  let unique_files := uniqueSorted m.files_read
  { condition := condition
    label := label
    query := query
    duration_seconds := duration
    tool_calls_count := m.tool_calls.length
    tool_calls_by_type := toolTypeCounts (m.tool_calls.map Prod.fst)
    tool_calls := m.tool_calls
    files_read := unique_files
    files_read_count := unique_files.length
    tokens_in := m.total_input_tokens
    tokens_out := m.total_output_tokens
    tokens_total := m.total_input_tokens + m.total_output_tokens
    cost_usd := round4 m.total_cost
    discovered_fmm :=
      m.tool_calls.any (fun tc => inputContains ".fmm" tc.2) ||
        pyIn ".fmm" full_text
    used_manifest := m.tool_calls.any
      (fun tc => inputContains "index.json" tc.2 && inputContains ".fmm" tc.2)
    response_lines := pySplitlinesCount full_text }

/- ## Spec-level stream observations used to state the claims -/

/-- Whether a decoded record is a terminal `result` record. -/
def isResultEvent : Event → Bool
  | .result _ => true
  | _ => false

/-- A stream segment containing no `result` record. -/
def resultFree (events : List Event) : Bool :=
  events.all (fun e => !isResultEvent e)

/-- The usage delta one event contributes for the token field selected by
`f` (only `assistant` records carry deltas). -/
def usageDelta (f : Usage → Option Nat) : Event → Nat
  | .assistant _ u => (f u).getD 0
  | _ => 0

/-- Cumulative sum of the usage deltas observed across `assistant`
records, for the token field selected by `f`. -/
def cumulative (f : Usage → Option Nat) (events : List Event) : Nat :=
  (events.map (usageDelta f)).sum

/-- The nonempty `file_path` inputs of `Read` tool-use blocks of one
content block — the contributions to the distinct-files-accessed set in
exp15 and exp15-isolated. -/
def blockReadPath : Block → List String
  | .toolUse name inp =>
      if name = "Read" ∧ inp.file_path.getD "" ≠ "" then [inp.file_path.getD ""]
      else []
  | _ => []

/-- Read paths contributed by one event. -/
def eventReadPaths : Event → List String
  | .assistant content _ =>
      content.foldr (fun b acc => blockReadPath b ++ acc) []
  | _ => []

/-- All Read paths of a stream, in order. -/
def readPaths (events : List Event) : List String :=
  events.foldr (fun e acc => eventReadPaths e ++ acc) []

-- ### THEOREMS ###

theorem isPrefixOf_self (l : List Char) : l.isPrefixOf l = true := by
  induction l with
  | nil => rfl
  | cons c t ih => simp [List.isPrefixOf, ih]

theorem isSubstrL_self (l : List Char) : isSubstrL l l = true := by
  cases l with
  | nil => rfl
  | cons c t => simp [isSubstrL, isPrefixOf_self]

theorem pyIn_self (s : String) : pyIn s s = true := isSubstrL_self s.toList

theorem isSubstrL_nil (hay : List Char) : isSubstrL [] hay = true := by
  cases hay <;> rfl

theorem pyIn_empty (s : String) : pyIn "" s = true := isSubstrL_nil s.toList

theorem norm16_empty : norm16 "" = "" := rfl

theorem exp16Class_total (t : String) : exp16ClassCount t = 1 := by
  by_cases h1 : t = "Read"
  · subst h1; decide
  · by_cases h2 : t = "Glob"
    · subst h2; decide
    · by_cases h3 : t = "Grep"
      · subst h3; decide
      · by_cases h4 : t = "Bash"
        · subst h4; decide
        · have b1 : (t == "Read") = false := beq_eq_false_iff_ne.mpr h1
          have b2 : (t == "Glob") = false := beq_eq_false_iff_ne.mpr h2
          have b3 : (t == "Grep") = false := beq_eq_false_iff_ne.mpr h3
          have b4 : (t == "Bash") = false := beq_eq_false_iff_ne.mpr h4
          cases hf : isFmmTool t <;>
            simp [exp16ClassCount, ind, exp16Other, b1, b2, b3, b4, hf]

theorem length_eq_sum_classes (names : List String) :
    names.length =
      names.countP (fun t => t == "Read") + names.countP (fun t => t == "Glob") +
        names.countP (fun t => t == "Grep") + names.countP (fun t => t == "Bash") +
        names.countP isFmmTool + names.countP exp16Other := by
  induction names with
  | nil => simp
  | cons t ts ih =>
      have h := exp16Class_total t
      simp only [exp16ClassCount, ind] at h
      simp only [List.countP_cons, List.length_cons]
      omega

/-- Claim C2: in the exp16 parser every tool name falls into exactly one
category of the closed set {read, glob, grep, shell, manifest-probe,
other}, and the total tool-call count equals the sum of the per-category
counts (with `other` the complement bucket the spec names). -/
theorem tool_classification_partition :
    (∀ t : String, exp16ClassCount t = 1) ∧
    ∀ events : List Event,
      (exp16ParseJsonl events).tool_call_count =
        (exp16ParseJsonl events).read_calls + (exp16ParseJsonl events).glob_calls +
          (exp16ParseJsonl events).grep_calls + (exp16ParseJsonl events).bash_calls +
          (exp16ParseJsonl events).fmm_calls.length +
          (exp16ParseJsonl events).tool_calls.countP exp16Other := by
  refine ⟨exp16Class_total, fun events => ?_⟩
  simp only [exp16ParseJsonl]
  rw [← List.countP_eq_length_filter]
  have h := length_eq_sum_classes (events.foldl exp16Step {}).tool_calls
  omega

/-- Claim C3: the two manifest-detection variants disagree. On a stream
with one Read of `fmm-index.txt`, exp15's rule (exact marker, or "fmm" and
"index" case-insensitively anywhere) fires while exp15-isolated's rule
(exact marker `.fmm/index.json` only) does not. -/
theorem manifest_detection_variants_disagree :
    (exp15Fold {}
        [Event.assistant
          [Block.toolUse "Read" { file_path := some "fmm-index.txt" }] {}]
      ).manifest_accessed = true ∧
    (isoFold {}
        [Event.assistant
          [Block.toolUse "Read" { file_path := some "fmm-index.txt" }] {}]
      ).manifest_accessed = false := by
  decide

theorem exp15Block_mono (m : Exp15State) (b : Block)
    (h : m.manifest_accessed = true) :
    (exp15Block m b).manifest_accessed = true := by
  cases b with
  | toolUse name input =>
      simp only [exp15Block]
      split_ifs <;> simp_all
  | text s => exact h
  | toolResult c => exact h
  | otherBlock => exact h

theorem isoBlock_mono (m : Exp15State) (b : Block)
    (h : m.manifest_accessed = true) :
    (isoBlock m b).manifest_accessed = true := by
  cases b with
  | toolUse name input =>
      simp only [isoBlock]
      split_ifs <;> simp_all
  | text s => exact h
  | toolResult c => exact h
  | otherBlock => exact h

theorem exp15UserBlock_mono (m : Exp15State) (b : Block)
    (h : m.manifest_accessed = true) :
    (exp15UserBlock m b).manifest_accessed = true := by
  cases b with
  | toolResult c =>
      simp only [exp15UserBlock]
      split_ifs <;> simp_all
  | text s => exact h
  | toolUse n i => exact h
  | otherBlock => exact h

theorem exp15BlockFold_mono (content : List Block) :
    ∀ m : Exp15State, m.manifest_accessed = true →
      (content.foldl exp15Block m).manifest_accessed = true := by
  induction content with
  | nil => intro m h; exact h
  | cons b bs ih => intro m h; exact ih _ (exp15Block_mono m b h)

theorem isoBlockFold_mono (content : List Block) :
    ∀ m : Exp15State, m.manifest_accessed = true →
      (content.foldl isoBlock m).manifest_accessed = true := by
  induction content with
  | nil => intro m h; exact h
  | cons b bs ih => intro m h; exact ih _ (isoBlock_mono m b h)

theorem exp15UserBlockFold_mono (content : List Block) :
    ∀ m : Exp15State, m.manifest_accessed = true →
      (content.foldl exp15UserBlock m).manifest_accessed = true := by
  induction content with
  | nil => intro m h; exact h
  | cons b bs ih => intro m h; exact ih _ (exp15UserBlock_mono m b h)

theorem exp15Step_mono (m : Exp15State) (e : Event)
    (h : m.manifest_accessed = true) :
    (exp15Step m e).manifest_accessed = true := by
  cases e with
  | assistant content usage => exact exp15BlockFold_mono content m h
  | user content => exact exp15UserBlockFold_mono content m h
  | result r => exact h
  | meta d => exact h
  | systemInit s k => exact h
  | otherEvent => exact h

theorem isoStep_mono (m : Exp15State) (e : Event)
    (h : m.manifest_accessed = true) :
    (isoStep m e).manifest_accessed = true := by
  cases e with
  | assistant content usage => exact isoBlockFold_mono content m h
  | user content => exact exp15UserBlockFold_mono content m h
  | result r => exact h
  | meta d => exact h
  | systemInit s k => exact h
  | otherEvent => exact h

theorem exp15Fold_mono (events : List Event) :
    ∀ m : Exp15State, m.manifest_accessed = true →
      (exp15Fold m events).manifest_accessed = true := by
  induction events with
  | nil => intro m h; exact h
  | cons e es ih => intro m h; exact ih _ (exp15Step_mono m e h)

theorem isoFold_mono (events : List Event) :
    ∀ m : Exp15State, m.manifest_accessed = true →
      (isoFold m events).manifest_accessed = true := by
  induction events with
  | nil => intro m h; exact h
  | cons e es ih => intro m h; exact ih _ (isoStep_mono m e h)

/-- Claim C4: in both parse_run variants `manifest_accessed` is monotonic
over the processed events — once true it stays true for the rest of the
stream — and a repeated qualifying event is a no-op on it. -/
theorem manifest_monotone_idempotent :
    (∀ (m : Exp15State) (events : List Event), m.manifest_accessed = true →
        (exp15Fold m events).manifest_accessed = true) ∧
    (∀ (m : Exp15State) (e : Event), (exp15Step m e).manifest_accessed = true →
        (exp15Step (exp15Step m e) e).manifest_accessed = true) ∧
    (∀ (m : Exp15State) (events : List Event), m.manifest_accessed = true →
        (isoFold m events).manifest_accessed = true) ∧
    (∀ (m : Exp15State) (e : Event), (isoStep m e).manifest_accessed = true →
        (isoStep (isoStep m e) e).manifest_accessed = true) :=
  ⟨fun m evs h => exp15Fold_mono evs m h,
   fun m e h => exp15Step_mono (exp15Step m e) e h,
   fun m evs h => isoFold_mono evs m h,
   fun m e h => isoStep_mono (isoStep m e) e h⟩

/-- Witness for C4: a state with the flag already set keeps it across a
further Glob call and a user tool-result. -/
theorem manifest_monotone_idempotent_witness :
    (exp15Fold { manifest_accessed := true }
        [Event.assistant [Block.toolUse "Glob" {}] {},
         Event.user [Block.toolResult "nothing"]]).manifest_accessed = true :=
  manifest_monotone_idempotent.1 { manifest_accessed := true }
    [Event.assistant [Block.toolUse "Glob" {}] {},
     Event.user [Block.toolResult "nothing"]] rfl

theorem readPaths_cons (e : Event) (es : List Event) :
    readPaths (e :: es) = eventReadPaths e ++ readPaths es := rfl

theorem exp15Block_files (m : Exp15State) (b : Block) :
    (exp15Block m b).files_accessed =
      (blockReadPath b).toFinset ∪ m.files_accessed := by
  cases b with
  | toolUse name input =>
      simp only [exp15Block, blockReadPath]
      split_ifs <;> simp_all [Finset.insert_eq, Finset.union_assoc]
  | text s => simp [exp15Block, blockReadPath]
  | toolResult c => simp [exp15Block, blockReadPath]
  | otherBlock => simp [exp15Block, blockReadPath]

theorem isoBlock_files (m : Exp15State) (b : Block) :
    (isoBlock m b).files_accessed =
      (blockReadPath b).toFinset ∪ m.files_accessed := by
  cases b with
  | toolUse name input =>
      simp only [isoBlock, blockReadPath]
      split_ifs <;> simp_all [Finset.insert_eq, Finset.union_assoc]
  | text s => simp [isoBlock, blockReadPath]
  | toolResult c => simp [isoBlock, blockReadPath]
  | otherBlock => simp [isoBlock, blockReadPath]

theorem exp15UserBlock_files (m : Exp15State) (b : Block) :
    (exp15UserBlock m b).files_accessed = m.files_accessed := by
  cases b with
  | toolResult c =>
      simp only [exp15UserBlock]
      split_ifs <;> rfl
  | text s => rfl
  | toolUse n i => rfl
  | otherBlock => rfl

theorem exp15BlockFold_files (content : List Block) :
    ∀ m : Exp15State,
      (content.foldl exp15Block m).files_accessed =
        (content.foldr (fun b acc => blockReadPath b ++ acc) []).toFinset ∪
          m.files_accessed := by
  induction content with
  | nil => intro m; simp
  | cons b bs ih =>
      intro m
      rw [List.foldl_cons, List.foldr_cons, ih, exp15Block_files]
      simp [Finset.union_assoc, Finset.union_left_comm, Finset.union_comm]

theorem isoBlockFold_files (content : List Block) :
    ∀ m : Exp15State,
      (content.foldl isoBlock m).files_accessed =
        (content.foldr (fun b acc => blockReadPath b ++ acc) []).toFinset ∪
          m.files_accessed := by
  induction content with
  | nil => intro m; simp
  | cons b bs ih =>
      intro m
      rw [List.foldl_cons, List.foldr_cons, ih, isoBlock_files]
      simp [Finset.union_assoc, Finset.union_left_comm, Finset.union_comm]

theorem exp15UserBlockFold_files (content : List Block) :
    ∀ m : Exp15State,
      (content.foldl exp15UserBlock m).files_accessed = m.files_accessed := by
  induction content with
  | nil => intro m; rfl
  | cons b bs ih =>
      intro m
      rw [List.foldl_cons, ih, exp15UserBlock_files]

theorem exp15Step_files (m : Exp15State) (e : Event) :
    (exp15Step m e).files_accessed =
      (eventReadPaths e).toFinset ∪ m.files_accessed := by
  cases e with
  | assistant content usage => exact exp15BlockFold_files content m
  | user content =>
      rw [show exp15Step m (Event.user content) = content.foldl exp15UserBlock m
        from rfl]
      simp [exp15UserBlockFold_files, eventReadPaths]
  | result r => simp [exp15Step, eventReadPaths]
  | meta d => simp [exp15Step, eventReadPaths]
  | systemInit s k => simp [exp15Step, eventReadPaths]
  | otherEvent => simp [exp15Step, eventReadPaths]

theorem isoStep_files (m : Exp15State) (e : Event) :
    (isoStep m e).files_accessed =
      (eventReadPaths e).toFinset ∪ m.files_accessed := by
  cases e with
  | assistant content usage => exact isoBlockFold_files content m
  | user content =>
      rw [show isoStep m (Event.user content) = content.foldl exp15UserBlock m
        from rfl]
      simp [exp15UserBlockFold_files, eventReadPaths]
  | result r => simp [isoStep, eventReadPaths]
  | meta d => simp [isoStep, eventReadPaths]
  | systemInit s k => simp [isoStep, eventReadPaths]
  | otherEvent => simp [isoStep, eventReadPaths]

theorem exp15Fold_files (events : List Event) :
    ∀ m : Exp15State,
      (exp15Fold m events).files_accessed =
        (readPaths events).toFinset ∪ m.files_accessed := by
  induction events with
  | nil => intro m; simp [exp15Fold, readPaths]
  | cons e es ih =>
      intro m
      rw [show exp15Fold m (e :: es) = exp15Fold (exp15Step m e) es from rfl,
        ih, exp15Step_files, readPaths_cons]
      simp [Finset.union_assoc, Finset.union_left_comm, Finset.union_comm]

theorem isoFold_files (events : List Event) :
    ∀ m : Exp15State,
      (isoFold m events).files_accessed =
        (readPaths events).toFinset ∪ m.files_accessed := by
  induction events with
  | nil => intro m; simp [isoFold, readPaths]
  | cons e es ih =>
      intro m
      rw [show isoFold m (e :: es) = isoFold (isoStep m e) es from rfl,
        ih, isoStep_files, readPaths_cons]
      simp [Finset.union_assoc, Finset.union_left_comm, Finset.union_comm]

/-- Claim C9 (amended): the exp15 and exp15-isolated outputs serialize the
distinct-files-accessed set as its cardinality (the number of distinct
nonempty Read paths of the stream), and the harness record's
`files_read_count` is the length of its `files_read` list; but the harness
record also includes that list — the set's elements — itself (see the
counterexample), so "never the set itself" does not hold for every
serialized record. -/
theorem files_set_serialized_as_cardinality :
    (∀ events : List Event,
        (exp15ParseRun events).files_accessed =
          ((readPaths events).toFinset).card) ∧
    (∀ events : List Event,
        (isoParseRun events).files_accessed =
          ((readPaths events).toFinset).card) ∧
    (∀ (c l q : String) (d : Nat) (events : List Event),
        (harnessResult c l q d events).files_read_count =
          (harnessResult c l q d events).files_read.length) := by
  refine ⟨fun events => ?_, fun events => ?_, fun c l q d events => rfl⟩
  · show (exp15Fold {} events).files_accessed.card = _
    rw [exp15Fold_files]
    simp
  · show (isoFold {} events).files_accessed.card = _
    rw [isoFold_files]
    simp

/-- Claim C9 counterexample: the harness output record for a run with one
Read of `/src/a.ts` contains the distinct-files list `["/src/a.ts"]`
itself (field `files_read`), not only its cardinality. -/
theorem harness_serializes_file_list :
    (harnessResult "control" "auth-flow" "q" 12
        [Event.assistant
          [Block.toolUse "Read" { file_path := some "/src/a.ts" }] {}]
      ).files_read = ["/src/a.ts"] := by
  decide

theorem cumulative_cons (f : Usage → Option Nat) (e : Event) (es : List Event) :
    cumulative f (e :: es) = usageDelta f e + cumulative f es := by
  simp [cumulative]

theorem exp17Block_pres (m : Exp17State) (b : Block) :
    (exp17Block m b).total_input = m.total_input ∧
    (exp17Block m b).total_output = m.total_output ∧
    (exp17Block m b).total_cache_read = m.total_cache_read ∧
    (exp17Block m b).total_cache_create = m.total_cache_create ∧
    (exp17Block m b).total_cost = m.total_cost ∧
    (exp17Block m b).num_turns = m.num_turns ∧
    (exp17Block m b).duration_ms = m.duration_ms := by
  cases b with
  | toolUse name inp =>
      simp only [exp17Block]
      split_ifs <;> exact ⟨rfl, rfl, rfl, rfl, rfl, rfl, rfl⟩
  | text s => exact ⟨rfl, rfl, rfl, rfl, rfl, rfl, rfl⟩
  | toolResult c => exact ⟨rfl, rfl, rfl, rfl, rfl, rfl, rfl⟩
  | otherBlock => exact ⟨rfl, rfl, rfl, rfl, rfl, rfl, rfl⟩

theorem exp17BlockFold_pres (content : List Block) :
    ∀ m : Exp17State,
      (content.foldl exp17Block m).total_input = m.total_input ∧
      (content.foldl exp17Block m).total_output = m.total_output ∧
      (content.foldl exp17Block m).total_cache_read = m.total_cache_read ∧
      (content.foldl exp17Block m).total_cache_create = m.total_cache_create ∧
      (content.foldl exp17Block m).total_cost = m.total_cost ∧
      (content.foldl exp17Block m).num_turns = m.num_turns ∧
      (content.foldl exp17Block m).duration_ms = m.duration_ms := by
  induction content with
  | nil => intro m; exact ⟨rfl, rfl, rfl, rfl, rfl, rfl, rfl⟩
  | cons b bs ih =>
      intro m
      obtain ⟨a1, a2, a3, a4, a5, a6, a7⟩ := exp17Block_pres m b
      obtain ⟨c1, c2, c3, c4, c5, c6, c7⟩ := ih (exp17Block m b)
      exact ⟨c1.trans a1, c2.trans a2, c3.trans a3, c4.trans a4,
        c5.trans a5, c6.trans a6, c7.trans a7⟩

theorem exp17Step_nonresult (m : Exp17State) (e : Event)
    (h : isResultEvent e = false) :
    (exp17Step m e).total_input =
        m.total_input + usageDelta Usage.input_tokens e ∧
    (exp17Step m e).total_output =
        m.total_output + usageDelta Usage.output_tokens e ∧
    (exp17Step m e).total_cache_read =
        m.total_cache_read + usageDelta Usage.cache_read_input_tokens e ∧
    (exp17Step m e).total_cache_create =
        m.total_cache_create + usageDelta Usage.cache_creation_input_tokens e ∧
    (exp17Step m e).total_cost = m.total_cost ∧
    (exp17Step m e).num_turns = m.num_turns ∧
    (exp17Step m e).duration_ms = m.duration_ms := by
  cases e with
  | result r => simp [isResultEvent] at h
  | assistant content usage =>
      obtain ⟨b1, b2, b3, b4, b5, b6, b7⟩ := exp17BlockFold_pres content m
      simp only [exp17Step, usageDelta]
      exact ⟨by rw [b1], by rw [b2], by rw [b3], by rw [b4], b5, b6, b7⟩
  | systemInit servers sk => simp [exp17Step, usageDelta]
  | user content => simp [exp17Step, usageDelta]
  | meta d => simp [exp17Step, usageDelta]
  | otherEvent => simp [exp17Step, usageDelta]

theorem exp17Fold_resultFree (events : List Event) :
    ∀ m : Exp17State, resultFree events = true →
      (events.foldl exp17Step m).total_input =
          m.total_input + cumulative Usage.input_tokens events ∧
      (events.foldl exp17Step m).total_output =
          m.total_output + cumulative Usage.output_tokens events ∧
      (events.foldl exp17Step m).total_cache_read =
          m.total_cache_read + cumulative Usage.cache_read_input_tokens events ∧
      (events.foldl exp17Step m).total_cache_create =
          m.total_cache_create +
            cumulative Usage.cache_creation_input_tokens events ∧
      (events.foldl exp17Step m).total_cost = m.total_cost ∧
      (events.foldl exp17Step m).num_turns = m.num_turns ∧
      (events.foldl exp17Step m).duration_ms = m.duration_ms := by
  induction events with
  | nil => intro m h; simp [cumulative]
  | cons e es ih =>
      intro m h
      have hh : isResultEvent e = false ∧ resultFree es = true := by
        simpa [resultFree, Bool.and_eq_true] using h
      obtain ⟨s1, s2, s3, s4, s5, s6, s7⟩ := exp17Step_nonresult m e hh.1
      obtain ⟨i1, i2, i3, i4, i5, i6, i7⟩ := ih (exp17Step m e) hh.2
      refine ⟨?_, ?_, ?_, ?_, ?_, ?_, ?_⟩
      · rw [List.foldl_cons, i1, s1, cumulative_cons]; omega
      · rw [List.foldl_cons, i2, s2, cumulative_cons]; omega
      · rw [List.foldl_cons, i3, s3, cumulative_cons]; omega
      · rw [List.foldl_cons, i4, s4, cumulative_cons]; omega
      · rw [List.foldl_cons, i5, s5]
      · rw [List.foldl_cons, i6, s6]
      · rw [List.foldl_cons, i7, s7]

/-- Claim C1 (amended): in the exp17 parser, on a stream of non-result
records followed by a single terminal result record, each token field
prefers the result record's usage value when present and non-zero and
otherwise equals the cumulative sum of the assistant usage deltas, while
cost and duration are taken from the result record (0 when absent); with
no result record at all, the token totals equal the cumulative deltas and
cost is 0.0 (duration 0). (As the counterexample shows, the harness parser
instead merges token totals by maximum, and exp15's reads them from the
result record alone, so the claim does not hold of every producer.) -/
theorem exp17_token_merge :
    (∀ (pre : List Event) (r : ResultRec), resultFree pre = true →
        (exp17ParseStreamJson (pre ++ [Event.result r])).input_tokens =
          (if r.usage.input_tokens.getD 0 ≠ 0 then r.usage.input_tokens.getD 0
           else cumulative Usage.input_tokens pre) ∧
        (exp17ParseStreamJson (pre ++ [Event.result r])).output_tokens =
          (if r.usage.output_tokens.getD 0 ≠ 0 then r.usage.output_tokens.getD 0
           else cumulative Usage.output_tokens pre) ∧
        (exp17ParseStreamJson (pre ++ [Event.result r])).cache_read_tokens =
          (if r.usage.cache_read_input_tokens.getD 0 ≠ 0 then
             r.usage.cache_read_input_tokens.getD 0
           else cumulative Usage.cache_read_input_tokens pre) ∧
        (exp17ParseStreamJson (pre ++ [Event.result r])).cache_create_tokens =
          (if r.usage.cache_creation_input_tokens.getD 0 ≠ 0 then
             r.usage.cache_creation_input_tokens.getD 0
           else cumulative Usage.cache_creation_input_tokens pre) ∧
        (exp17ParseStreamJson (pre ++ [Event.result r])).cost_usd =
          r.total_cost_usd.getD 0 ∧
        (exp17ParseStreamJson (pre ++ [Event.result r])).duration_ms =
          r.duration_ms.getD 0) ∧
    (∀ events : List Event, resultFree events = true →
        (exp17ParseStreamJson events).input_tokens =
          cumulative Usage.input_tokens events ∧
        (exp17ParseStreamJson events).output_tokens =
          cumulative Usage.output_tokens events ∧
        (exp17ParseStreamJson events).cache_read_tokens =
          cumulative Usage.cache_read_input_tokens events ∧
        (exp17ParseStreamJson events).cache_create_tokens =
          cumulative Usage.cache_creation_input_tokens events ∧
        (exp17ParseStreamJson events).cost_usd = 0 ∧
        (exp17ParseStreamJson events).duration_ms = 0) := by
  constructor
  · intro pre r h
    obtain ⟨h1, h2, h3, h4, h5, h6, h7⟩ := exp17Fold_resultFree pre {} h
    simp only [exp17ParseStreamJson, List.foldl_append, List.foldl_cons,
      List.foldl_nil]
    simp only [exp17Step]
    refine ⟨?_, ?_, ?_, ?_, by trivial, by trivial⟩
    · rw [h1]; simp
    · rw [h2]; simp
    · rw [h3]; simp
    · rw [h4]; simp
  · intro events h
    obtain ⟨h1, h2, h3, h4, h5, h6, h7⟩ := exp17Fold_resultFree events {} h
    simp only [exp17ParseStreamJson]
    refine ⟨?_, ?_, ?_, ?_, ?_, ?_⟩
    · rw [h1]; simp
    · rw [h2]; simp
    · rw [h3]; simp
    · rw [h4]; simp
    · rw [h5]
    · rw [h7]

/-- Witness for C1 at a concrete stream: one assistant delta of 7 input
tokens followed by a result reporting 100 gives 100; and with the result
usage absent the cumulative 7 survives. -/
theorem exp17_token_merge_witness :
    (exp17ParseStreamJson ([Event.assistant [] { input_tokens := some 7 }] ++
        [Event.result { usage := { input_tokens := some 100 } }])
      ).input_tokens = 100 := by
  have h := (exp17_token_merge.1 [Event.assistant [] { input_tokens := some 7 }]
    { usage := { input_tokens := some 100 } } (by decide)).1
  rw [h]
  decide

/-- Claim C1 counterexample: the harness parser does not honour the
terminal result record's non-zero token total. With a cumulative assistant
delta of 150 input tokens and a terminal result reporting a non-zero total
of 50, its `tokens_in` is the maximum 150, not the result's 50. -/
theorem harness_tokens_take_max_not_result :
    (harnessResult "c" "l" "q" 0
        [Event.assistant [] { input_tokens := some 150 },
         Event.result { modelUsage := [("m", { inputTokens := some 50 })] }]
      ).tokens_in = 150 ∧
    (harnessResult "c" "l" "q" 0
        [Event.assistant [] { input_tokens := some 150 },
         Event.result { modelUsage := [("m", { inputTokens := some 50 })] }]
      ).tokens_in ≠ 50 := by
  decide

/-- Claim C5: `score_exact_number` extracts the word-bounded whole-number
tokens of the answer and returns 1.0 exactly when the expected number's
decimal string is among them; concretely, against ground truth 42 the
answer "The count is 42 items" scores 1.0 and "420 items" scores 0.0. -/
theorem score_exact_number_spec :
    (∀ answer truth : String,
        score_exact_number answer truth = 1 ↔ truth ∈ findNumbers answer) ∧
    score_exact_number "The count is 42 items" "42" = 1 ∧
    score_exact_number "420 items" "42" = 0 := by
  refine ⟨fun answer truth => ?_, by decide, by decide⟩
  by_cases h : truth ∈ findNumbers answer <;>
    simp [score_exact_number, h]

/-- Claim C6 counterexample: the exp17 variant of `score_exact_path` is not
reflexive — for the answer and ground truth both equal to the
backtick-quoted string `\x60x\x60` it returns 0.0, not 1.0. -/
theorem score_exact_path17_not_reflexive :
    score_exact_path17 "`x`" "`x`" = 0 := by decide

/-- Claim C6 (amended): the exp16 variant of `score_exact_path` is
reflexive (answer equal to ground truth scores 1.0), and both variants are
normalization-invariant: the answers "./a/b" and "a/b" receive identical
scores against every ground truth. (The exp17 variant also strips
backticks and whitespace from the answer only, so it is not reflexive.) -/
theorem score_exact_path_reflexive_invariant :
    (∀ t : String, score_exact_path t t = 1) ∧
    (∀ truth : String,
        score_exact_path "./a/b" truth = score_exact_path "a/b" truth) ∧
    (∀ truth : String,
        score_exact_path17 "./a/b" truth = score_exact_path17 "a/b" truth) := by
  refine ⟨fun t => ?_, fun truth => ?_, fun truth => ?_⟩
  · simp [score_exact_path, pyIn_self]
  · unfold score_exact_path
    rw [show norm16 "./a/b" = norm16 "a/b" from by decide]
  · unfold score_exact_path17
    rw [show norm17answer "./a/b" = norm17answer "a/b" from by decide]

/-- Claim C7: `score_set_match` with an empty ground-truth list returns 1.0
for every answer (including the empty string); a missing expected set is
vacuously satisfied, not an error. -/
theorem score_set_match_empty (answer : String) :
    score_set_match answer [] = 1 := by
  simp [score_set_match]

/-- Claim C8: the percentage-delta computations never divide by zero — the
`max(baseline, eps)` denominators are nonzero for every baseline (for both
the count epsilon 1 and the currency epsilon 0.01), baseline 0 and
treatment 5 with epsilon 1 yield +500%, and the harness `pct_change`
returns the non-numeric marker rather than dividing when the control
value is 0. -/
theorem pct_delta_safe :
    (∀ b : ℚ, max b 1 ≠ 0 ∧ max b (1 / 100) ≠ 0) ∧
    toolDelta 0 5 = 500 ∧
    (∀ t : ℚ, pct_change 0 t = none) := by
  refine ⟨fun b => ⟨?_, ?_⟩, ?_, fun t => ?_⟩
  · exact ne_of_gt (lt_of_lt_of_le one_pos (le_max_right b 1))
  · exact ne_of_gt (lt_of_lt_of_le (by norm_num) (le_max_right b (1 / 100)))
  · unfold toolDelta
    rw [max_eq_right (by norm_num : (0 : ℚ) ≤ 1)]
    norm_num
  · simp [pct_change]

/-- Claim C10: with an empty ground-truth string, both variants of
`score_exact_path` return 1.0 for every answer, because the normalized
empty truth is a substring of every normalized answer. -/
theorem score_exact_path_empty_truth (answer : String) :
    score_exact_path answer "" = 1 ∧ score_exact_path17 answer "" = 1 := by
  constructor <;>
    simp [score_exact_path, score_exact_path17, norm16_empty, pyIn_empty]
